import Mathlib

/-!
Verification of the logging shim in `src/utils/logging.py` of the
`custom_bert` repository.

The module wraps the standard Python `logging` facility.  We shallowly embed
the observable state the module manipulates:

* the library root logger (its attached-handler list, integer level and
  propagation flag), mirroring a `logging.Logger` registry entry;
* the module-global `_default_handler` singleton (`Option Nat`: handlers are
  identified by allocation ids, `none` models the Python `None`);
* a fresh-id counter modelling object creation by `logging.StreamHandler()`;
* the formatter optionally installed on the default handler;
* the level of the Python top-level root logger (the parent of the library
  root logger), used by `Logger.getEffectiveLevel`.

Environment variables are passed as `Option String` (`none` = unset, mirroring
`os.getenv` returning `None`); Python truthiness of the returned string is the
explicit test `s ≠ ""`.  A Python `assert` failure is modelled by a function
returning `none : Option ModuleState`.
-/

namespace BertLogging

/- Severity constants imported from the `logging` module. -/

def NOTSET : Nat := 0

def DEBUG : Nat := 10

def INFO : Nat := 20

def WARNING : Nat := 30

def ERROR : Nat := 40

def CRITICAL : Nat := 50

def FATAL : Nat := CRITICAL

def WARN : Nat := WARNING

/-- A `logging.Logger` registry entry: ordered list of attached handlers
(identified by ids), integer minimum level, propagation flag. -/
structure LoggerState where
  handlers : List Nat
  level : Nat
  propagate : Bool
deriving Repr, DecidableEq

/-- A freshly created `logging.Logger`: no handlers, level `NOTSET`,
propagation enabled (the Python default). -/
def freshLogger : LoggerState :=
  { handlers := [], level := NOTSET, propagate := true }

/-- `Logger.addHandler`: appends the handler unless already attached. -/
def LoggerState.addHandler (L : LoggerState) (h : Nat) : LoggerState :=
  if h ∈ L.handlers then L else { L with handlers := L.handlers ++ [h] }

/-- `Logger.removeHandler`: removes the handler if attached (first
occurrence, as Python `list.remove`), otherwise no-op. -/
def LoggerState.removeHandler (L : LoggerState) (h : Nat) : LoggerState :=
  if h ∈ L.handlers then { L with handlers := L.handlers.erase h } else L

/-- `Logger.setLevel`. -/
def LoggerState.setLevel (L : LoggerState) (v : Nat) : LoggerState :=
  { L with level := v }

/-- `Logger.getEffectiveLevel` for the library root logger: its own level if
set (non-`NOTSET`), otherwise the level of its parent, the Python top-level
root logger. -/
def LoggerState.getEffectiveLevel (L : LoggerState) (parentLevel : Nat) : Nat :=
  if L.level ≠ NOTSET then L.level else parentLevel

/-- The whole module-global state of `logging.py`. -/
structure ModuleState where
  rootLogger : LoggerState
  _default_handler : Option Nat
  nextHandlerId : Nat
  defaultFormatter : Option String
  pythonRootLevel : Nat
deriving Repr, DecidableEq

/-- The state at process start: library root logger fresh, no default
handler yet, Python root logger at its default level `WARNING`. -/
def initState : ModuleState :=
  { rootLogger := freshLogger
    _default_handler := none
    nextHandlerId := 0
    defaultFormatter := none
    pythonRootLevel := WARNING }

/-- The module-level `log_levels` dict (insertion order matters only for the
warning message, kept in `log_level_names`). -/
def log_levels (name : String) : Option Nat :=
  if name = "detail" then some DEBUG
  else if name = "debug" then some DEBUG
  else if name = "info" then some INFO
  else if name = "warning" then some WARNING
  else if name = "error" then some ERROR
  else if name = "critical" then some CRITICAL
  else none

/-- The keys of `log_levels` joined by a comma, as produced by
`", ".join(log_levels.keys())`. -/
def log_level_names : String :=
  "detail, debug, info, warning, error, critical"

def _default_log_level : Nat := WARNING

/-- `_get_default_logging_level()`.  Input: the value of the
`TRANSFORMERS_VERBOSITY` environment variable.  Output: the computed level
and the warning message emitted on the way (`none` when no warning was
logged).  The function is total: it never raises. -/
def _get_default_logging_level (env_level_str : Option String) :
    Nat × Option String :=
  match env_level_str with
  | some s =>
    if s ≠ "" then
      match log_levels s with
      | some l => (l, none)
      | none =>
        (_default_log_level,
         some ("Unknown option TRANSFORMERS_VERBOSITY=" ++ s ++
               ", has to be one of: " ++ log_level_names))
    else (_default_log_level, none)
  | none => (_default_log_level, none)

/-- The detailed formatter installed when `TRANSFORMERS_VERBOSITY=detail`. -/
def detailFormat : String :=
  "[%(levelname)s|%(pathname)s:%(lineno)s] %(asctime)s >> %(message)s"

/-- `_configure_library_root_logger()`: lazy one-time initialization.  If the
default handler already exists, return immediately; otherwise create a fresh
handler, attach it to the library root logger, set the level from the
environment, install the detailed formatter when the variable is exactly
`detail`, and disable propagation. -/
def _configure_library_root_logger (env : Option String) (s : ModuleState) :
    ModuleState :=
  match s._default_handler with
  | some _ => s
  | none =>
    let h := s.nextHandlerId
    let lg := (s.rootLogger.addHandler h).setLevel
      (_get_default_logging_level env).1
    { s with
      rootLogger := { lg with propagate := false }
      _default_handler := some h
      nextHandlerId := s.nextHandlerId + 1
      defaultFormatter :=
        if env = some "detail" then some detailFormat else s.defaultFormatter }

/-- `get_logger(name)`: triggers lazy initialization and returns the logger
of the given name (default: the library name). -/
def get_logger (env : Option String) (name : Option String)
    (s : ModuleState) : ModuleState × String :=
  (_configure_library_root_logger env s, name.getD "custom_bert")

/-- `get_verbosity()`: configure, then the effective level of the library
root logger. -/
def get_verbosity (env : Option String) (s : ModuleState) :
    ModuleState × Nat :=
  let s1 := _configure_library_root_logger env s
  (s1, s1.rootLogger.getEffectiveLevel s1.pythonRootLevel)

/-- `set_verbosity(verbosity)`: configure, then set the library root logger
level. -/
def set_verbosity (env : Option String) (verbosity : Nat)
    (s : ModuleState) : ModuleState :=
  let s1 := _configure_library_root_logger env s
  { s1 with rootLogger := s1.rootLogger.setLevel verbosity }

def set_verbosity_info (env : Option String) (s : ModuleState) : ModuleState :=
  set_verbosity env INFO s

def set_verbosity_warning (env : Option String) (s : ModuleState) :
    ModuleState :=
  set_verbosity env WARNING s

def set_verbosity_debug (env : Option String) (s : ModuleState) :
    ModuleState :=
  set_verbosity env DEBUG s

def set_verbosity_error (env : Option String) (s : ModuleState) :
    ModuleState :=
  set_verbosity env ERROR s

/-- `disable_default_handler()`: configure, `assert _default_handler is not
None` (assertion failure = `none`), then detach it. -/
def disable_default_handler (env : Option String) (s : ModuleState) :
    Option ModuleState :=
  let s1 := _configure_library_root_logger env s
  match s1._default_handler with
  | none => none
  | some h => some { s1 with rootLogger := s1.rootLogger.removeHandler h }

/-- `enable_default_handler()`: configure, `assert _default_handler is not
None`, then attach it. -/
def enable_default_handler (env : Option String) (s : ModuleState) :
    Option ModuleState :=
  let s1 := _configure_library_root_logger env s
  match s1._default_handler with
  | none => none
  | some h => some { s1 with rootLogger := s1.rootLogger.addHandler h }

/-- `add_handler(handler)`: configure, `assert handler is not None`, then
attach the caller-supplied handler. -/
def add_handler (env : Option String) (handler : Option Nat)
    (s : ModuleState) : Option ModuleState :=
  let s1 := _configure_library_root_logger env s
  match handler with
  | none => none
  | some h => some { s1 with rootLogger := s1.rootLogger.addHandler h }

/-- `remove_handler(handler)` exactly as written in the source: configure,
then `assert handler is not None and handler not in
_get_library_root_logger().handlers` — the assertion demands the handler is
NOT attached — then `removeHandler`. -/
def remove_handler (env : Option String) (handler : Option Nat)
    (s : ModuleState) : Option ModuleState :=
  let s1 := _configure_library_root_logger env s
  match handler with
  | none => none
  | some h =>
    if h ∈ s1.rootLogger.handlers then none
    else some { s1 with rootLogger := s1.rootLogger.removeHandler h }

/-- `disable_propagation()`. -/
def disable_propagation (env : Option String) (s : ModuleState) :
    ModuleState :=
  let s1 := _configure_library_root_logger env s
  { s1 with rootLogger := { s1.rootLogger with propagate := false } }

/-- `enable_propagation()`. -/
def enable_propagation (env : Option String) (s : ModuleState) :
    ModuleState :=
  let s1 := _configure_library_root_logger env s
  { s1 with rootLogger := { s1.rootLogger with propagate := true } }

/-- A normal `logger.warning(msg)` emission: the record carrying `msg`. -/
def Logger_warning (msg : String) : Option String := some msg

/-- `warning_advice(self, msg)` with the value of
`TRANSFORMERS_NO_ADVISORY_WARNINGS` passed explicitly.  `os.getenv(...,
False)` yields the string when set, `False` otherwise; `if
no_advisory_warnings: return` suppresses the warning exactly when that value
is truthy (a nonempty string). -/
def warning_advice (no_advisory_env : Option String) (msg : String) :
    Option String :=
  let no_advisory_warnings : Bool :=
    match no_advisory_env with
    | some s => s != ""
    | none => false
  if no_advisory_warnings then none else Logger_warning msg

/-- `warning_once(self, msg)`: the `functools.lru_cache(None)` memoization is
keyed by the full argument tuple `(self, msg)`.  State: the set of argument
tuples already seen (the cache, unbounded).  Result: the new cache and
whether `self.warning` was invoked this call. -/
def warning_once (cache : List (String × String)) (self msg : String) :
    List (String × String) × Bool :=
  if (self, msg) ∈ cache then (cache, false)
  else (cache ++ [(self, msg)], true)

/-- `info_once(self, msg)`: same memoization at the informational level,
with its own cache. -/
def info_once (cache : List (String × String)) (self msg : String) :
    List (String × String) × Bool :=
  if (self, msg) ∈ cache then (cache, false)
  else (cache ++ [(self, msg)], true)

/-- Run a sequence of `warning_once` calls on one logger through the cache,
counting emitted warning records. -/
def run_warning_once (self : String) :
    List String → List (String × String) → Nat
  | [], _ => 0
  | m :: ms, cache =>
    let r := warning_once cache self m
    (if r.2 then 1 else 0) + run_warning_once self ms r.1

/-- The `EmptyTqdm` null progress object: stores `args[0] if args else
None`. -/
structure EmptyTqdm (α : Type) where
  _iterator : Option (List α)
deriving Repr, DecidableEq

/-- `EmptyTqdm.__init__(*args)` with the positional arguments given as a
list of iterables. -/
def EmptyTqdm.init {α : Type} (args : List (List α)) : EmptyTqdm α :=
  ⟨args.head?⟩

/-- `EmptyTqdm.__iter__`: `iter(self._iterator)`.  Yields the stored
iterable; `none` models the `TypeError` of `iter(None)` when the constructor
got no positional argument. -/
def EmptyTqdm.iterate {α : Type} (e : EmptyTqdm α) : Option (List α) :=
  e._iterator

/-- `EmptyTqdm.__getattr__` returns `empty_fn`, which accepts any arguments,
leaves the object untouched and returns `None`. -/
def EmptyTqdm.getattrCall {α β : Type} (e : EmptyTqdm α) (name : String)
    (args : List β) : EmptyTqdm α × Option β :=
  (e, none)

/-- `EmptyTqdm.__enter__`: returns `self`. -/
def EmptyTqdm.enter {α : Type} (e : EmptyTqdm α) : EmptyTqdm α := e

/-- `EmptyTqdm.__exit__`: returns `None`. -/
def EmptyTqdm.scopeExit {α : Type} (e : EmptyTqdm α) : Option Unit := none

/-- Result of `_tqdm_cls.__call__`: either a real `tqdm_lib.tqdm` over the
arguments (external library, left abstract as its argument list) or an
`EmptyTqdm`. -/
inductive TqdmResult (α : Type) where
  | real (args : List (List α)) : TqdmResult α
  | empty (e : EmptyTqdm α) : TqdmResult α
deriving Repr, DecidableEq

/-- `_tqdm_cls.__call__(*args)`: delegates to the real progress bar when
`_tqdm_active`, otherwise builds an `EmptyTqdm` over the same arguments. -/
def tqdm_cls_call {α : Type} (tqdm_active : Bool) (args : List (List α)) :
    TqdmResult α :=
  if tqdm_active then TqdmResult.real args
  else TqdmResult.empty (EmptyTqdm.init args)

/-- The public operations of the verbosity controller, for invariant
preservation. -/
inductive Op where
  | getLoggerOp (name : Option String)
  | getVerbosity
  | setVerbosity (v : Nat)
  | enableDefaultHandler
  | disableDefaultHandler
  | addHandlerOp (h : Option Nat)
  | removeHandlerOp (h : Option Nat)
  | enableProp
  | disableProp
deriving Repr, DecidableEq

/-- One controller call as a state transition; `none` is an assertion
failure. -/
def step (env : Option String) (op : Op) (s : ModuleState) :
    Option ModuleState :=
  match op with
  | Op.getLoggerOp name => some (get_logger env name s).1
  | Op.getVerbosity => some (get_verbosity env s).1
  | Op.setVerbosity v => some (set_verbosity env v s)
  | Op.enableDefaultHandler => enable_default_handler env s
  | Op.disableDefaultHandler => disable_default_handler env s
  | Op.addHandlerOp h => add_handler env h s
  | Op.removeHandlerOp h => remove_handler env h s
  | Op.enableProp => some (enable_propagation env s)
  | Op.disableProp => some (disable_propagation env s)

/- ------------------------------------------------------------------ -/
/- Helper lemmas -/
/- ------------------------------------------------------------------ -/

theorem configure_of_isSome (env : Option String) (s : ModuleState)
    (h : Nat) (hs : s._default_handler = some h) :
    _configure_library_root_logger env s = s := by
  unfold _configure_library_root_logger
  rw [hs]

theorem configure_isSome (env : Option String) (s : ModuleState) :
    (_configure_library_root_logger env s)._default_handler.isSome = true := by
  unfold _configure_library_root_logger
  cases hd : s._default_handler <;> simp [hd]

theorem configure_idem (env : Option String) (s : ModuleState) :
    _configure_library_root_logger env
      (_configure_library_root_logger env s)
      = _configure_library_root_logger env s := by
  cases hd : (_configure_library_root_logger env s)._default_handler with
  | none =>
    have := configure_isSome env s
    rw [hd] at this
    simp at this
  | some h => exact configure_of_isSome env _ h hd

theorem addHandler_nodup (L : LoggerState) (h : Nat)
    (hn : L.handlers.Nodup) : (L.addHandler h).handlers.Nodup := by
  unfold LoggerState.addHandler
  split
  · exact hn
  · next hmem => simp [List.nodup_append, hn, hmem]

theorem removeHandler_nodup (L : LoggerState) (h : Nat)
    (hn : L.handlers.Nodup) : (L.removeHandler h).handlers.Nodup := by
  unfold LoggerState.removeHandler
  split
  · exact hn.erase h
  · exact hn

theorem mem_addHandler (L : LoggerState) (h : Nat) :
    h ∈ (L.addHandler h).handlers := by
  unfold LoggerState.addHandler
  split
  · assumption
  · simp

theorem not_mem_removeHandler (L : LoggerState) (h : Nat)
    (hn : L.handlers.Nodup) : h ∉ (L.removeHandler h).handlers := by
  unfold LoggerState.removeHandler
  split
  · simp [hn.mem_erase_iff]
  · next hmem => exact hmem

theorem configure_nodup (env : Option String) (s : ModuleState)
    (hn : s.rootLogger.handlers.Nodup) :
    (_configure_library_root_logger env s).rootLogger.handlers.Nodup := by
  unfold _configure_library_root_logger
  cases hd : s._default_handler with
  | none => exact addHandler_nodup s.rootLogger s.nextHandlerId hn
  | some h => exact hn

theorem step_preserves (env : Option String) (op : Op) (s s' : ModuleState)
    (hn : s.rootLogger.handlers.Nodup)
    (hstep : step env op s = some s') :
    s'.rootLogger.handlers.Nodup ∧
      s'._default_handler =
        (_configure_library_root_logger env s)._default_handler := by
  have hcn : (_configure_library_root_logger env s).rootLogger.handlers.Nodup :=
    configure_nodup env s hn
  obtain ⟨h, hh⟩ := Option.isSome_iff_exists.mp (configure_isSome env s)
  cases op with
  | getLoggerOp name =>
    simp [step, get_logger] at hstep
    subst hstep
    exact ⟨hcn, rfl⟩
  | getVerbosity =>
    simp [step, get_verbosity] at hstep
    subst hstep
    exact ⟨hcn, rfl⟩
  | setVerbosity v =>
    simp [step, set_verbosity] at hstep
    subst hstep
    exact ⟨hcn, rfl⟩
  | enableDefaultHandler =>
    simp [step, enable_default_handler, hh] at hstep
    subst hstep
    refine ⟨addHandler_nodup _ _ hcn, ?_⟩
    rw [hh]
  | disableDefaultHandler =>
    simp [step, disable_default_handler, hh] at hstep
    subst hstep
    refine ⟨removeHandler_nodup _ _ hcn, ?_⟩
    rw [hh]
  | addHandlerOp ho =>
    cases ho with
    | none => simp [step, add_handler] at hstep
    | some h2 =>
      simp [step, add_handler] at hstep
      subst hstep
      exact ⟨addHandler_nodup _ _ hcn, rfl⟩
  | removeHandlerOp ho =>
    cases ho with
    | none => simp [step, remove_handler] at hstep
    | some h2 =>
      simp [step, remove_handler] at hstep
      obtain ⟨hmem, heq⟩ := hstep
      subst heq
      exact ⟨removeHandler_nodup _ _ hcn, rfl⟩
  | enableProp =>
    simp [step, enable_propagation] at hstep
    subst hstep
    exact ⟨hcn, rfl⟩
  | disableProp =>
    simp [step, disable_propagation] at hstep
    subst hstep
    exact ⟨hcn, rfl⟩

/- ------------------------------------------------------------------ -/
/- Claim theorems -/
/- ------------------------------------------------------------------ -/

/-- Claim C2: for each of the five named severity levels, `set_verbosity`
followed by `get_verbosity` returns the same level, for any prior module
state and any environment. -/
theorem set_then_get_verbosity_roundtrip (env : Option String)
    (s : ModuleState) (v : Nat)
    (hv : v = DEBUG ∨ v = INFO ∨ v = WARNING ∨ v = ERROR ∨ v = CRITICAL) :
    (get_verbosity env (set_verbosity env v s)).2 = v := by
  obtain ⟨h, hh⟩ := Option.isSome_iff_exists.mp (configure_isSome env s)
  have hset : (set_verbosity env v s)._default_handler = some h := by
    simp [set_verbosity, hh]
  unfold get_verbosity
  rw [configure_of_isSome env _ h hset]
  have hlevel : (set_verbosity env v s).rootLogger.level = v := by
    simp [set_verbosity, LoggerState.setLevel]
  simp only [LoggerState.getEffectiveLevel, hlevel]
  rcases hv with rfl | rfl | rfl | rfl | rfl <;> rfl

/-- Witness for C2 at the concrete level `INFO` from the fresh process
state with the environment variable unset. -/
theorem set_then_get_verbosity_roundtrip_witness :
    (INFO = DEBUG ∨ INFO = INFO ∨ INFO = WARNING ∨ INFO = ERROR ∨
      INFO = CRITICAL)
    ∧ (get_verbosity none (set_verbosity none INFO initState)).2 = INFO :=
  ⟨Or.inr (Or.inl rfl),
   set_then_get_verbosity_roundtrip none initState INFO (Or.inr (Or.inl rfl))⟩

/-- Claim C3: a set, nonempty, unrecognized `TRANSFORMERS_VERBOSITY` value
never raises (the embedded function is total); it produces the warning
message listing the valid names, and initialization from the fresh process
state leaves the library root logger at the process default `WARNING`. -/
theorem unknown_verbosity_warns_and_defaults (name : String)
    (h1 : name ≠ "") (h2 : log_levels name = none) :
    _get_default_logging_level (some name)
      = (WARNING,
         some ("Unknown option TRANSFORMERS_VERBOSITY=" ++ name ++
               ", has to be one of: " ++ log_level_names))
    ∧ (_configure_library_root_logger (some name) initState).rootLogger.level
        = WARNING := by
  have hlev : _get_default_logging_level (some name)
      = (WARNING,
         some ("Unknown option TRANSFORMERS_VERBOSITY=" ++ name ++
               ", has to be one of: " ++ log_level_names)) := by
    simp only [_get_default_logging_level]
    rw [if_pos h1, h2]
    rfl
  refine ⟨hlev, ?_⟩
  unfold _configure_library_root_logger
  simp only [initState]
  simp [LoggerState.setLevel, hlev]

/-- Witness for C3 at the concrete unrecognized name `"verbose"`. -/
theorem unknown_verbosity_warns_and_defaults_witness :
    ("verbose" ≠ "" ∧ log_levels "verbose" = none)
    ∧ (_get_default_logging_level (some "verbose")
        = (WARNING,
           some ("Unknown option TRANSFORMERS_VERBOSITY=" ++ "verbose" ++
                 ", has to be one of: " ++ log_level_names))
      ∧ (_configure_library_root_logger (some "verbose")
            initState).rootLogger.level = WARNING) :=
  ⟨⟨by decide, by decide⟩,
   unknown_verbosity_warns_and_defaults "verbose" (by decide) (by decide)⟩

/-- Claim C9: immediately after the first initialization of the library root
logger (from any state in which the default handler does not yet exist, so
the lazy initializer actually runs), the propagation flag is false. -/
theorem propagation_disabled_after_init (env : Option String)
    (s : ModuleState) (hd : s._default_handler = none) :
    (_configure_library_root_logger env s).rootLogger.propagate = false := by
  unfold _configure_library_root_logger
  rw [hd]

/-- Witness for C9 at the fresh process state. -/
theorem propagation_disabled_after_init_witness :
    initState._default_handler = none
    ∧ (_configure_library_root_logger none initState).rootLogger.propagate
        = false :=
  ⟨rfl, propagation_disabled_after_init none initState rfl⟩

/-- Claim C10: the `assert _default_handler is not None` inside
`enable_default_handler` and `disable_default_handler` can never fail: both
first run the lazy initializer, which guarantees the singleton is non-None,
so neither operation ever returns the assertion-failure outcome. -/
theorem default_handler_assert_unreachable (env : Option String)
    (s : ModuleState) :
    (disable_default_handler env s).isSome = true
    ∧ (enable_default_handler env s).isSome = true := by
  obtain ⟨h, hh⟩ := Option.isSome_iff_exists.mp (configure_isSome env s)
  constructor
  · unfold disable_default_handler
    simp [hh]
  · unfold enable_default_handler
    simp [hh]

/-- Claim C1 (evidence of a code bug): the source asserts `handler is not
None and handler not in _get_library_root_logger().handlers` — inverted with
respect to the documented precondition.  After initialization the default
handler (id 0) IS attached, yet `remove_handler` on it returns the
assertion-failure outcome instead of detaching it; a handler that was never
attached (id 5) passes the assertion and the call changes nothing. -/
theorem remove_handler_assert_inverted :
    0 ∈ (_configure_library_root_logger none initState).rootLogger.handlers
    ∧ remove_handler none (some 0)
        (_configure_library_root_logger none initState) = none
    ∧ remove_handler none (some 5)
        (_configure_library_root_logger none initState)
      = some (_configure_library_root_logger none initState) := by
  refine ⟨by decide, by decide, by decide⟩

/-- Claim C4: after initialization, `disable_default_handler` detaches the
default handler (id 0) from the library root logger, and a subsequent
`enable_default_handler` re-attaches it, whatever the environment. -/
theorem disable_then_enable_default_handler (env : Option String) :
    ∃ s2 s3,
      (_configure_library_root_logger env initState)._default_handler
        = some 0
      ∧ disable_default_handler env
          (_configure_library_root_logger env initState) = some s2
      ∧ 0 ∉ s2.rootLogger.handlers
      ∧ s2._default_handler = some 0
      ∧ enable_default_handler env s2 = some s3
      ∧ 0 ∈ s3.rootLogger.handlers := by
  refine ⟨_, _, rfl, rfl, ?_, rfl, rfl, ?_⟩
  · show (0 : Nat) ∉ ([] : List Nat)
    simp
  · show (0 : Nat) ∈ [0]
    simp

/-- Claim C5: on a single logger, two `warning_once` calls with the same
argument tuple emit exactly one record while calls with two distinct
messages emit two; a tuple already in the memoization cache is suppressed
and the cache is unchanged, for the remainder of the process. -/
theorem warning_once_memoization (lg x y : String) (hxy : x ≠ y)
    (cache : List (String × String)) (hmem : (lg, x) ∈ cache) :
    run_warning_once lg [x, x] [] = 1
    ∧ run_warning_once lg [x, y] [] = 2
    ∧ warning_once cache lg x = (cache, false) := by
  refine ⟨?_, ?_, ?_⟩
  · simp [run_warning_once, warning_once]
  · simp [run_warning_once, warning_once, Ne.symm hxy]
  · simp [warning_once, hmem]

/-- Witness for C5 with messages `X` and `Y` on logger `bert` and a cache
already holding `(bert, X)`. -/
theorem warning_once_memoization_witness :
    ("X" ≠ "Y" ∧ ("bert", "X") ∈ [("bert", "X")])
    ∧ (run_warning_once "bert" ["X", "X"] [] = 1
      ∧ run_warning_once "bert" ["X", "Y"] [] = 2
      ∧ warning_once [("bert", "X")] "bert" "X" = ([("bert", "X")], false)) :=
  ⟨⟨by decide, by decide⟩,
   warning_once_memoization "bert" "X" "Y" (by decide)
     [("bert", "X")] (by decide)⟩

/-- Claim C6: with `TRANSFORMERS_NO_ADVISORY_WARNINGS` set to a truthy
(nonempty) value, `warning_advice` produces no output whatever the message;
with the variable unset it is identical to a normal warning emission. -/
theorem warning_advice_suppression (flag msg : String) (hne : flag ≠ "") :
    warning_advice (some flag) msg = none
    ∧ warning_advice none msg = Logger_warning msg := by
  constructor
  · simp [warning_advice, hne]
  · rfl

/-- Witness for C6 with the flag set to `1`. -/
theorem warning_advice_suppression_witness :
    ("1" ≠ "")
    ∧ (warning_advice (some "1") "deprecated call" = none
      ∧ warning_advice none "deprecated call"
          = Logger_warning "deprecated call") :=
  ⟨by decide, warning_advice_suppression "1" "deprecated call" (by decide)⟩

/-- Claim C7: with progress bars disabled the factory returns the null
progress object over its arguments; iterating that object yields exactly the
iterable passed to the constructor, and every other method invocation —
dynamic attribute call with any arguments, scoped enter and exit — returns
`None` without error and leaves the object unchanged. -/
theorem empty_tqdm_null_object (xs : List Nat) (name : String)
    (args : List Nat) :
    tqdm_cls_call false [xs] = TqdmResult.empty (EmptyTqdm.init [xs])
    ∧ (EmptyTqdm.init [xs]).iterate = some xs
    ∧ (EmptyTqdm.init [xs]).getattrCall name args = (EmptyTqdm.init [xs], none)
    ∧ (EmptyTqdm.init [xs]).enter = EmptyTqdm.init [xs]
    ∧ (EmptyTqdm.init [xs]).scopeExit = none :=
  ⟨rfl, rfl, rfl, rfl, rfl⟩

/-- Claim C8: lazy initialization is idempotent (a later call is a no-op
once the default handler exists); every successful controller operation
preserves the no-duplicate-attachment property of the handler list, so in
particular the default handler is attached at most once; and no operation
recreates the handler: after any successful step the singleton equals
exactly what the one lazy initialization produced. -/
theorem controller_invariants (env : Option String) (op : Op)
    (s s' : ModuleState) (hdl : Nat)
    (hn : s.rootLogger.handlers.Nodup)
    (hstep : step env op s = some s')
    (hd : s'._default_handler = some hdl) :
    _configure_library_root_logger env (_configure_library_root_logger env s)
      = _configure_library_root_logger env s
    ∧ s'.rootLogger.handlers.Nodup
    ∧ s'.rootLogger.handlers.count hdl ≤ 1
    ∧ s'._default_handler
        = (_configure_library_root_logger env s)._default_handler := by
  obtain ⟨hn', hdh⟩ := step_preserves env op s s' hn hstep
  exact ⟨configure_idem env s, hn',
    List.nodup_iff_count_le_one.mp hn' hdl, hdh⟩

/-- Witness for C8 on the `set_verbosity 20` operation from the fresh
process state. -/
theorem controller_invariants_witness :
    (initState.rootLogger.handlers.Nodup
      ∧ step none (Op.setVerbosity 20) initState
          = some (set_verbosity none 20 initState)
      ∧ (set_verbosity none 20 initState)._default_handler = some 0)
    ∧ (_configure_library_root_logger none
          (_configure_library_root_logger none initState)
        = _configure_library_root_logger none initState
      ∧ (set_verbosity none 20 initState).rootLogger.handlers.Nodup
      ∧ (set_verbosity none 20 initState).rootLogger.handlers.count 0 ≤ 1
      ∧ (set_verbosity none 20 initState)._default_handler
          = (_configure_library_root_logger none initState)._default_handler) :=
  ⟨⟨by decide, by decide, by decide⟩,
   controller_invariants none (Op.setVerbosity 20) initState
     (set_verbosity none 20 initState) 0 (by decide) (by decide) (by decide)⟩

end BertLogging
